import Mathlib

/-!
  # Checks model — shallow embedding

  A shallow embedding of the `ChecksModel` class of Gerrit's checks plugin
  support (polygerrit-ui checks model). The model maintains checks state for
  two patchset contexts (LATEST and SELECTED) in a single immutable snapshot
  (`ChecksState`) published through a BehaviorSubject; every state-store
  operation reads the current snapshot, builds a new one, and publishes it.

  JavaScript runtime details that matter here are modelled explicitly:

  * A provider-state entry is a JS object whose keys may be missing: the
    mutation operations spread a possibly-`undefined` lookup
    (`{...pluginState[pluginName], ...}`), which yields an object missing
    every field the spread did not set. So `ChecksProviderState` below has
    every field `Option`-al; `none` is a missing/`undefined` key.
  * A JS object keyed by plugin name is an insertion-ordered map, modelled
    as an association list: assignment to an existing key keeps its
    position, a new key is appended.
  * JS truthiness: `!x` is true for `undefined` and for the number `0`,
    so the guards in `triggerAction` and the `checksSelected$` selector
    treat a present `0` like an absent value.
  * A thrown TypeError (member access on `undefined`) and the
    `assertIsDefined` assertion are modelled by the `StepResult.error`
    outcome; `StepResult.noop` models an early `return` without publishing
    a snapshot, and `StepResult.next s` models `privateState$.next(s)`.
-/

namespace Gerrit

/-- The two patchset contexts the model keeps checks data for. -/
inductive ChecksPatchset where
  | LATEST
  | SELECTED
deriving DecidableEq, Repr

/-- Run status enum of the checks API. -/
inductive RunStatus where
  | RUNNABLE
  | SCHEDULED
  | RUNNING
  | COMPLETED
deriving DecidableEq, Repr

/-- A link, as passed through the model unchanged. -/
structure Link where
  url : String
deriving DecidableEq, Repr

/-- An action offered by a provider. The callback is a JS function; it is
modelled by an opaque token (`Nat`), `none` meaning no callback. JS
functions are always truthy, so presence of the token is exactly the
truthiness of `action.callback`. -/
structure Action where
  name : String
  callback : Option Nat := none
deriving DecidableEq, Repr

/-- A check result as delivered by a provider (API shape). -/
structure CheckResultApi where
  externalId : Option String := none
  summary : String := ""
deriving DecidableEq, Repr

/-- A check result as stored in the model: the API result plus the
internally derived `internalResultId`. -/
structure CheckResult extends CheckResultApi where
  internalResultId : String
deriving DecidableEq, Repr

/-- One entry of a run's `attemptDetails` list: the attempt number and a
status icon. -/
structure AttemptDetail where
  attempt : Option Nat := none
  icon : String := ""
deriving DecidableEq, Repr

/-- A check run as delivered by a provider (API shape). `change`,
`patchset` and `attempt` are optional numbers, as in the checks API. -/
structure CheckRunApi where
  checkName : String
  change : Option Nat := none
  patchset : Option Nat := none
  attempt : Option Nat := none
  externalId : Option String := none
  status : RunStatus := .COMPLETED
  results : Option (List CheckResultApi) := none
deriving DecidableEq, Repr

/-- A check run as stored in the model: API fields plus the derived
`pluginName`, `internalRunId`, attempt aggregation fields, and results
carrying `internalResultId`. -/
structure CheckRun where
  checkName : String
  change : Option Nat := none
  patchset : Option Nat := none
  attempt : Option Nat := none
  externalId : Option String := none
  status : RunStatus := .COMPLETED
  pluginName : String := ""
  internalRunId : String := ""
  isLatestAttempt : Bool := false
  isSingleAttempt : Bool := false
  attemptDetails : List AttemptDetail := []
  results : Option (List CheckResult) := none
deriving DecidableEq, Repr

/-- The per-plugin, per-context provider state object. Every field is
`Option`-al because the store operations build these objects by spreading a
possibly-missing map entry: an unknown plugin name spreads `undefined`,
yielding an object with only the explicitly set keys. -/
structure ChecksProviderState where
  pluginName : Option String := none
  loading : Option Bool := none
  firstTimeLoad : Option Bool := none
  errorMessage : Option String := none
  loginCallback : Option Nat := none
  runs : Option (List CheckRun) := none
  actions : Option (List Action) := none
  links : Option (List Link) := none
deriving DecidableEq, Repr

/-- The provider-state object with no keys set. -/
def emptyProviderState : ChecksProviderState := {}

/-- A JS object keyed by plugin name: an insertion-ordered association
list. -/
abbrev PluginStateMap := List (String × ChecksProviderState)

/-- JS property read `m[k]`: the value at the first matching key, or
`undefined`. -/
def assocGet {α : Type} (m : List (String × α)) (k : String) : Option α :=
  match m with
  | [] => none
  | (k₂, v) :: rest => if k₂ = k then some v else assocGet rest k

/-- JS property write `m[k] = v`: replaces in place if the key exists,
appends otherwise (insertion-ordered object semantics). -/
def assocSet {α : Type} (m : List (String × α)) (k : String) (v : α) :
    List (String × α) :=
  match m with
  | [] => [(k, v)]
  | (k₂, w) :: rest =>
    if k₂ = k then (k, v) :: rest else (k₂, w) :: assocSet rest k v

/-- The root snapshot held by the model's BehaviorSubject. -/
structure ChecksState where
  patchsetNumberSelected : Option Nat := none
  pluginStateLatest : PluginStateMap := []
  pluginStateSelected : PluginStateMap := []
deriving DecidableEq, Repr

/-- The initial snapshot: both contexts empty, no patchset selected. -/
def initState : ChecksState := {}

/-- `getPluginState`: chooses the map for the given context (the source
also shallow-copies the chosen map into the next snapshot; with value
semantics the copy is the identity). -/
def ChecksState.getPluginState (s : ChecksState) (ps : ChecksPatchset) :
    PluginStateMap :=
  match ps with
  | .LATEST => s.pluginStateLatest
  | .SELECTED => s.pluginStateSelected

/-- Writes back the chosen context's map into the snapshot. -/
def ChecksState.setPluginState (s : ChecksState) (ps : ChecksPatchset)
    (m : PluginStateMap) : ChecksState :=
  match ps with
  | .LATEST => { s with pluginStateLatest := m }
  | .SELECTED => { s with pluginStateSelected := m }

/-- The base object of a spread `{...pluginState[pluginName], ...}`:
the entry if present, else the empty object (spread of `undefined`). -/
def spreadOf (m : PluginStateMap) (p : String) : ChecksProviderState :=
  (assocGet m p).getD emptyProviderState

/-- Outcome of one store operation: publish a new snapshot
(`privateState$.next`), return without publishing, or throw. -/
inductive StepResult where
  | next (s : ChecksState)
  | noop
  | error
deriving DecidableEq, Repr

/-- The snapshot held by the BehaviorSubject after an operation: a thrown
exception or an early return leaves the previously published snapshot in
place. -/
def applyStep (s : ChecksState) : StepResult → ChecksState
  | .next s' => s'
  | .noop => s
  | .error => s

/-- `updateStateSetProvider`: initializes a provider entry at
registration. -/
def updateStateSetProvider (pluginName : String) (patchset : ChecksPatchset)
    (s : ChecksState) : ChecksState :=
  s.setPluginState patchset (assocSet (s.getPluginState patchset) pluginName
    { pluginName := some pluginName
      loading := some false
      firstTimeLoad := some true
      runs := some []
      actions := some []
      links := some [] })

/-- `updateStateSetLoading`: sets `loading: true` on top of the spread of
the existing entry. -/
def updateStateSetLoading (pluginName : String) (patchset : ChecksPatchset)
    (s : ChecksState) : ChecksState :=
  s.setPluginState patchset (assocSet (s.getPluginState patchset) pluginName
    { spreadOf (s.getPluginState patchset) pluginName with
      loading := some true })

/-- `updateStateSetError`: records an error message, clears the login
callback, runs and actions; `links` is not overridden, so it survives from
the spread base. -/
def updateStateSetError (pluginName : String) (errorMessage : String)
    (patchset : ChecksPatchset) (s : ChecksState) : ChecksState :=
  s.setPluginState patchset (assocSet (s.getPluginState patchset) pluginName
    { spreadOf (s.getPluginState patchset) pluginName with
      loading := some false
      firstTimeLoad := some false
      errorMessage := some errorMessage
      loginCallback := none
      runs := some []
      actions := some [] })

/-- `updateStateSetNotLoggedIn`: records a login callback, clears the
error message, runs and actions. -/
def updateStateSetNotLoggedIn (pluginName : String) (loginCallback : Nat)
    (patchset : ChecksPatchset) (s : ChecksState) : ChecksState :=
  s.setPluginState patchset (assocSet (s.getPluginState patchset) pluginName
    { spreadOf (s.getPluginState patchset) pluginName with
      loading := some false
      firstTimeLoad := some false
      errorMessage := none
      loginCallback := some loginCallback
      runs := some []
      actions := some [] })

/-- Decimal rendering of a JS `number | undefined` inside a template
string: `undefined` renders as the string "undefined". -/
def showOptNat : Option Nat → String
  | none => "undefined"
  | some n => toString n

/-- The internal run id template
`checkName-change-patchset-attempt`. -/
def runId (r : CheckRunApi) : String :=
  r.checkName ++ "-" ++ showOptNat r.change ++ "-" ++ showOptNat r.patchset
    ++ "-" ++ showOptNat r.attempt

/-- Modelled from the spec: the status icon carried by each
`AttemptDetail` (checks-util is not among the provided sources, and the
spec fixes no icon names, only that each attempt carries one); a
deterministic function of the run status. -/
def iconForStatus : RunStatus → String
  | .RUNNABLE => "runnable"
  | .SCHEDULED => "scheduled"
  | .RUNNING => "running"
  | .COMPLETED => "completed"

/-- The aggregation record per check name: all attempts, the latest
attempt number, and whether the check has a single attempt. -/
structure AttemptInfo where
  attempts : List AttemptDetail
  latestAttempt : Option Nat
  isSingleAttempt : Bool
deriving DecidableEq, Repr

/-- First-occurrence deduplication of a name list, mirroring the key
order of a JS `Map` filled by iterating the runs. -/
def dedupNamesAux : List String → List String → List String
  | [], _ => []
  | n :: ns, seen =>
    if seen.contains n then dedupNamesAux ns seen
    else n :: dedupNamesAux ns (n :: seen)

/-- The distinct check names of a run list, in first-occurrence order. -/
def checkNames (runs : List CheckRunApi) : List String :=
  dedupNamesAux (runs.map (·.checkName)) []

/-- The runs of one check name, in input order. -/
def runsWithName (runs : List CheckRunApi) (name : String) :
    List CheckRunApi :=
  runs.filter (fun r => r.checkName == name)

/-- The maximum defined attempt number of a group, `none` when every run
lacks one. -/
def maxAttempt (group : List CheckRunApi) : Option Nat :=
  group.foldl
    (fun acc r =>
      match acc, r.attempt with
      | none, a => a
      | some m, none => some m
      | some m, some a => some (Nat.max m a))
    none

/-- Modelled from the spec: `createAttemptMap` of checks-util is not among
the provided sources. Per the spec's Attempt Aggregator contract, it groups
all runs by `checkName` and yields, per check name, this record: the list
of attempt details (one per run, carrying attempt number and status icon),
the maximum attempt number seen in the group (`none` if all runs lack
one), and whether the group has exactly one run. -/
def attemptInfoFor (runs : List CheckRunApi) (name : String) : AttemptInfo :=
  let group := runsWithName runs name
  { attempts := group.map
      (fun r => { attempt := r.attempt, icon := iconForStatus r.status })
    latestAttempt := maxAttempt group
    isSingleAttempt := group.length == 1 }

/-- Modelled from the spec (see `attemptInfoFor`): the attempt map keyed
by check name, in first-occurrence order. -/
def createAttemptMap (runs : List CheckRunApi) :
    List (String × AttemptInfo) :=
  (checkNames runs).map (fun name => (name, attemptInfoFor runs name))

/-- The sort key of the in-place attempts sort: `attempt ?? -1`. -/
def attemptSortKey (a : AttemptDetail) : Int :=
  match a.attempt with
  | none => -1
  | some n => (n : Int)

/-- One step of a stable ascending insertion sort by `attemptSortKey`:
an element goes after every element with a key not greater than its own. -/
def insertByKey (x : AttemptDetail) : List AttemptDetail → List AttemptDetail
  | [] => [x]
  | y :: ys =>
    if attemptSortKey x < attemptSortKey y then x :: y :: ys
    else y :: insertByKey x ys

/-- The stable ascending sort of an attempts list by `attempt ?? -1`
(JS `Array.prototype.sort` with the numeric comparator is stable). -/
def sortAttempts (l : List AttemptDetail) : List AttemptDetail :=
  l.foldl (fun acc x => insertByKey x acc) []

/-- The run object built by `updateStateSetResults` for one incoming API
run: the API fields spread, plus `pluginName`, the internal run id, the
attempt aggregation fields, and results numbered by position. -/
def mkCheckRun (pluginName : String) (info : AttemptInfo)
    (run : CheckRunApi) : CheckRun :=
  { checkName := run.checkName
    change := run.change
    patchset := run.patchset
    attempt := run.attempt
    externalId := run.externalId
    status := run.status
    pluginName := pluginName
    internalRunId := runId run
    isLatestAttempt := info.latestAttempt == run.attempt
    isSingleAttempt := info.isSingleAttempt
    attemptDetails := info.attempts
    results := some ((run.results.getD []).enum.map
      (fun p => { toCheckResultApi := p.2
                  internalResultId := runId run ++ "-" ++ toString p.1 })) }

/-- The in-place ascending sort of one attempt-info record's attempts,
performed by `updateStateSetResults` before mapping the runs. -/
def sortInfo (info : AttemptInfo) : AttemptInfo :=
  { info with attempts := sortAttempts info.attempts }

/-- The attempt map after the in-place sorting loop of
`updateStateSetResults`. -/
def sortedAttemptMap (runs : List CheckRunApi) : List (String × AttemptInfo) :=
  (createAttemptMap runs).map (fun p => (p.1, sortInfo p.2))

/-- A list map that can fail: `none` as soon as the function fails,
modelling a loop body that can throw. -/
def mapOption {α β : Type} (f : α → Option β) : List α → Option (List β)
  | [] => some []
  | x :: xs =>
    match f x, mapOption f xs with
    | some y, some ys => some (y :: ys)
    | _, _ => none

/-- The `runs.map` of `updateStateSetResults`; a run whose check name the
attempt map misses makes `assertIsDefined(attemptInfo)` throw, hence the
`Option`. -/
def setResultsRuns (pluginName : String) (runs : List CheckRunApi) :
    Option (List CheckRun) :=
  mapOption (fun run =>
    (assocGet (sortedAttemptMap runs) run.checkName).map
      (fun info => mkCheckRun pluginName info run)) runs

/-- `updateStateSetResults`: aggregates attempts over the incoming runs
(sorting each attempts list ascending in place), then replaces the
provider entry with fresh runs/actions/links, clearing the error and login
markers; `.error` is the `assertIsDefined(attemptInfo)` assertion
throwing. -/
def updateStateSetResultsRes (pluginName : String) (runs : List CheckRunApi)
    (actions : List Action) (links : List Link) (patchset : ChecksPatchset)
    (s : ChecksState) : StepResult :=
  match setResultsRuns pluginName runs with
  | none => .error
  | some newRuns =>
    .next (s.setPluginState patchset
      (assocSet (s.getPluginState patchset) pluginName
        { spreadOf (s.getPluginState patchset) pluginName with
          loading := some false
          firstTimeLoad := some false
          errorMessage := none
          loginCallback := none
          runs := some newRuns
          actions := some actions
          links := some links }))

/-- The published snapshot after `updateStateSetResults`. -/
def updateStateSetResults (pluginName : String) (runs : List CheckRunApi)
    (actions : List Action) (links : List Link) (patchset : ChecksPatchset)
    (s : ChecksState) : ChecksState :=
  applyStep s (updateStateSetResultsRes pluginName runs actions links patchset s)

/-- The run filter of `updateStateUpdateResult`: a stored run is updated
only when `change`, `patchset`, `attempt` and `checkName` all equal the
incoming run's (JS `!==` on `number | undefined` is `Option` equality). -/
def runMatches (run : CheckRun) (u : CheckRunApi) : Bool :=
  run.change == u.change && run.patchset == u.patchset
    && run.attempt == u.attempt && run.checkName == u.checkName

/-- The result filter of `updateStateUpdateResult`:
`result.externalId && result.externalId === updatedResult.externalId` —
the stored result's external id must be truthy (present and nonempty) and
equal the incoming result's. -/
def resultMatches (res : CheckResult) (u : CheckResultApi) : Bool :=
  match res.externalId with
  | none => false
  | some id => id != "" && u.externalId == some id

/-- The inner `results.map` of `updateStateUpdateResult`: each matching
result is replaced by the incoming result keeping the stored
`internalResultId`; the flag records whether any result matched. -/
def updateResults (u : CheckResultApi) :
    List CheckResult → List CheckResult × Bool
  | [] => ([], false)
  | res :: rest =>
    let tail := updateResults u rest
    if resultMatches res u then
      ({ toCheckResultApi := u, internalResultId := res.internalResultId }
        :: tail.1, true)
    else (res :: tail.1, tail.2)

/-- The outer `runs.map` of `updateStateUpdateResult`: runs failing the
4-tuple filter pass through; a matching run is rebuilt with the mapped
results only when some result matched (`resultUpdated`); the flag
accumulates `runUpdated`. -/
def updateRuns (uRun : CheckRunApi) (uRes : CheckResultApi) :
    List CheckRun → List CheckRun × Bool
  | [] => ([], false)
  | run :: rest =>
    let tail := updateRuns uRun uRes rest
    if runMatches run uRun then
      let mapped := updateResults uRes (run.results.getD [])
      let run' := if mapped.2 then { run with results := some mapped.1 } else run
      (run' :: tail.1, tail.2 || mapped.2)
    else (run :: tail.1, tail.2)

/-- `updateStateUpdateResult`: reads `pluginState[pluginName].runs` (a
TypeError — `.error` — when the plugin has no entry or the entry has no
`runs` key), maps the runs, and publishes a new snapshot only when some
run was updated, returning without publishing otherwise. -/
def updateStateUpdateResultRes (pluginName : String) (uRun : CheckRunApi)
    (uRes : CheckResultApi) (patchset : ChecksPatchset) (s : ChecksState) :
    StepResult :=
  match assocGet (s.getPluginState patchset) pluginName with
  | none => .error
  | some st =>
    match st.runs with
    | none => .error
    | some rs =>
      let mapped := updateRuns uRun uRes rs
      if mapped.2 then
        .next (s.setPluginState patchset
          (assocSet (s.getPluginState patchset) pluginName
            { st with runs := some mapped.1 }))
      else .noop

/-- `updateStateSetPatchset`: stores the selected patchset number into the
next snapshot. -/
def updateStateSetPatchset (patchsetNumber : Option Nat) (s : ChecksState) :
    ChecksState :=
  { s with patchsetNumberSelected := patchsetNumber }

/-- The derived view `checksSelected$`: the selected context when
`patchsetNumberSelected` is truthy (defined and nonzero), else the latest
context — `state.patchsetNumberSelected ? selected : latest`. -/
def checksSelected (s : ChecksState) : PluginStateMap :=
  match s.patchsetNumberSelected with
  | none => s.pluginStateLatest
  | some n => if n != 0 then s.pluginStateSelected else s.pluginStateLatest

/-- The model-level mutable fields around the state store that the claims
touch: the provider registry and reload subjects (keyed by plugin name),
the started fetch pipelines (identified by their (plugin, context) key;
their rxjs internals are effectful and outside the store), and the change
and latest-patchset numbers mirrored from the change model. -/
structure ChecksModel where
  providers : List String := []
  reloadSubjects : List String := []
  pipelines : List (String × ChecksPatchset) := []
  state : ChecksState := {}
  changeNum : Option Nat := none
  latestPatchNum : Option Nat := none
deriving DecidableEq, Repr

/-- `setPatchset`: normalizes against the latest known patchset number —
`num === this.latestPatchNum ? undefined : num` — before storing. -/
def ChecksModel.setPatchset (m : ChecksModel) (num : Option Nat) :
    ChecksModel :=
  { m with state :=
      (updateStateSetPatchset (if num == m.latestPatchNum then none else num)
        m.state) }

/-- `register`: a plugin name already present in the registry returns
after a console warning, touching nothing; otherwise the provider and a
reload subject are stored, both contexts get a fresh provider entry, and a
fetch pipeline is started per context. -/
def ChecksModel.register (m : ChecksModel) (pluginName : String) :
    ChecksModel :=
  if m.providers.contains pluginName then m
  else
    { m with
      providers := m.providers ++ [pluginName]
      reloadSubjects := m.reloadSubjects ++ [pluginName]
      state := updateStateSetProvider pluginName .SELECTED
        (updateStateSetProvider pluginName .LATEST m.state)
      pipelines := m.pipelines ++ [(pluginName, .LATEST), (pluginName, .SELECTED)] }

/-- The callback invocation `triggerAction` performs when every guard
passes. -/
structure InvokeArgs where
  changeNum : Nat
  patchSet : Nat
  attempt : Option Nat
  externalId : Option String
  checkName : Option String
  actionName : String
deriving DecidableEq, Repr

/-- An observable effect of `triggerAction`: a callback invocation (with
the callback token) or a fired alert. -/
inductive TriggerEffect where
  | invoke (args : InvokeArgs) (callback : Nat)
  | alert (message : String)
deriving DecidableEq, Repr

/-- The patchset `triggerAction` resolves:
`run?.patchset ?? this.latestPatchNum`. -/
def resolvedPatchset (m : ChecksModel) (runOpt : Option CheckRun) :
    Option Nat :=
  match runOpt.bind (fun run => run.patchset) with
  | some v => some v
  | none => m.latestPatchNum

/-- `triggerAction`: returns the effect trace up to the first alert. The
guards are JS truthiness tests: a missing action or callback, a falsy
(`undefined` or `0`) change number, or a falsy resolved patchset (the
run's own, else the latest) make it return with no effect. After invoking
the callback, the alert fires only when the returned value is
promise-like (`promiseLike` abstracts `!promise?.then`). -/
def triggerAction (m : ChecksModel) (actionOpt : Option Action)
    (runOpt : Option CheckRun) (promiseLike : Bool) : List TriggerEffect :=
  match actionOpt with
  | none => []
  | some action =>
    match action.callback with
    | none => []
    | some cb =>
      match m.changeNum with
      | none => []
      | some chNum =>
        if chNum = 0 then []
        else
          match resolvedPatchset m runOpt with
          | none => []
          | some patchSet =>
            if patchSet = 0 then []
            else
              .invoke
                { changeNum := chNum
                  patchSet := patchSet
                  attempt := runOpt.bind (·.attempt)
                  externalId := runOpt.bind (·.externalId)
                  checkName := runOpt.map (·.checkName)
                  actionName := action.name } cb
                :: (if promiseLike then
                      [.alert ("Triggering action \x27" ++ action.name
                        ++ "\x27 ...")]
                    else [])

/-- One state-store operation, for reachability over operation
sequences. -/
inductive ChecksOp where
  | setProvider (p : String) (ps : ChecksPatchset)
  | setLoading (p : String) (ps : ChecksPatchset)
  | setError (p : String) (msg : String) (ps : ChecksPatchset)
  | setNotLoggedIn (p : String) (cb : Nat) (ps : ChecksPatchset)
  | setResults (p : String) (runs : List CheckRunApi) (actions : List Action)
      (links : List Link) (ps : ChecksPatchset)
  | updateResult (p : String) (run : CheckRunApi) (result : CheckResultApi)
      (ps : ChecksPatchset)
deriving Repr

/-- The published snapshot after one operation (an exception or an early
return leaves the previous snapshot published). -/
def applyOp (s : ChecksState) : ChecksOp → ChecksState
  | .setProvider p ps => updateStateSetProvider p ps s
  | .setLoading p ps => updateStateSetLoading p ps s
  | .setError p msg ps => updateStateSetError p msg ps s
  | .setNotLoggedIn p cb ps => updateStateSetNotLoggedIn p cb ps s
  | .setResults p runs actions links ps =>
    applyStep s (updateStateSetResultsRes p runs actions links ps s)
  | .updateResult p run result ps =>
    applyStep s (updateStateUpdateResultRes p run result ps s)

/-- The published snapshot after a sequence of operations from the initial
empty state. -/
def runOps (ops : List ChecksOp) : ChecksState :=
  ops.foldl applyOp initState

/-! ## Basic lemmas on the object and snapshot helpers -/

theorem assocGet_assocSet_self {α : Type} (m : List (String × α)) (k : String)
    (v : α) : assocGet (assocSet m k v) k = some v := by
  induction m with
  | nil => simp [assocGet, assocSet]
  | cons hd tl ih =>
    obtain ⟨k₂, w⟩ := hd
    by_cases h : k₂ = k
    · simp [assocSet, assocGet, h]
    · simp [assocSet, assocGet, h, ih]

theorem assocSet_assocSet_self {α : Type} (m : List (String × α)) (k : String)
    (v : α) : assocSet (assocSet m k v) k v = assocSet m k v := by
  induction m with
  | nil => simp [assocSet]
  | cons hd tl ih =>
    obtain ⟨k₂, w⟩ := hd
    by_cases h : k₂ = k
    · simp [assocSet, h]
    · simp [assocSet, h, ih]

theorem assocGet_map_of_mem {α : Type} (names : List String) (g : String → α)
    (k : String) (hk : k ∈ names) :
    assocGet (names.map (fun n => (n, g n))) k = some (g k) := by
  induction names with
  | nil => cases hk
  | cons n ns ih =>
    by_cases h : n = k
    · subst h
      simp [assocGet]
    · rcases List.mem_cons.mp hk with rfl | hk₂
      · exact absurd rfl h
      · simp [assocGet, h, ih hk₂]

theorem getPluginState_setPluginState (s : ChecksState) (ps : ChecksPatchset)
    (m : PluginStateMap) : (s.setPluginState ps m).getPluginState ps = m := by
  cases ps <;> rfl

theorem setPluginState_setPluginState (s : ChecksState) (ps : ChecksPatchset)
    (m₁ m₂ : PluginStateMap) :
    (s.setPluginState ps m₁).setPluginState ps m₂ = s.setPluginState ps m₂ := by
  cases ps <;> rfl

theorem setPluginState_getPluginState (s : ChecksState) (ps : ChecksPatchset) :
    s.setPluginState ps (s.getPluginState ps) = s := by
  cases ps <;> rfl

theorem mem_dedupNamesAux (x : String) (l : List String) :
    ∀ seen : List String, x ∈ l →
      x ∈ dedupNamesAux l seen ∨ x ∈ seen := by
  induction l with
  | nil => intro seen hx; cases hx
  | cons n ns ih =>
    intro seen hx
    rcases List.mem_cons.mp hx with rfl | hx₂
    · by_cases h : x ∈ seen
      · right; exact h
      · left; simp [dedupNamesAux, h]
    · by_cases h : n ∈ seen
      · rcases ih seen hx₂ with h₂ | h₂
        · left; simpa [dedupNamesAux, h] using h₂
        · right; exact h₂
      · rcases ih (n :: seen) hx₂ with h₂ | h₂
        · left; simp [dedupNamesAux, h, h₂]
        · rcases List.mem_cons.mp h₂ with rfl | h₃
          · left; simp [dedupNamesAux, h]
          · right; exact h₃

theorem checkName_mem_checkNames (runs : List CheckRunApi) (r : CheckRunApi)
    (hr : r ∈ runs) : r.checkName ∈ checkNames runs := by
  have hmem : r.checkName ∈ runs.map (·.checkName) :=
    List.mem_map_of_mem _ hr
  rcases mem_dedupNamesAux r.checkName (runs.map (·.checkName)) [] hmem with h | h
  · exact h
  · cases h

theorem assocGet_sortedAttemptMap (runs : List CheckRunApi) (r : CheckRunApi)
    (hr : r ∈ runs) :
    assocGet (sortedAttemptMap runs) r.checkName =
      some (sortInfo (attemptInfoFor runs r.checkName)) := by
  have hk := checkName_mem_checkNames runs r hr
  have heq : sortedAttemptMap runs =
      (checkNames runs).map (fun n => (n, sortInfo (attemptInfoFor runs n))) := by
    simp [sortedAttemptMap, createAttemptMap, List.map_map, Function.comp]
  rw [heq, assocGet_map_of_mem _ _ _ hk]

theorem mapOption_eq_some_map {α β : Type} (l : List α) (f : α → Option β)
    (g : α → β) (h : ∀ x ∈ l, f x = some (g x)) :
    mapOption f l = some (l.map g) := by
  induction l with
  | nil => rfl
  | cons x xs ih =>
    have hx := h x (by simp)
    have hxs := ih (fun y hy => h y (by simp [hy]))
    simp [mapOption, hx, hxs]

/-- `setResultsRuns` always succeeds: every run's check name is a key of
the attempt map built from the same run list, so the
`assertIsDefined(attemptInfo)` assertion never throws. -/
theorem setResultsRuns_eq_some (pluginName : String) (runs : List CheckRunApi) :
    setResultsRuns pluginName runs =
      some (runs.map (fun run =>
        mkCheckRun pluginName (sortInfo (attemptInfoFor runs run.checkName)) run)) := by
  apply mapOption_eq_some_map
  intro run hrun
  rw [assocGet_sortedAttemptMap runs run hrun]
  rfl

/-! ## Characterizations of the incremental update -/

/-- The per-result replacement of `updateStateUpdateResult`: a matching
result becomes the incoming result with the stored `internalResultId`,
any other result passes through. -/
def resultMapFn (u : CheckResultApi) (res : CheckResult) : CheckResult :=
  if resultMatches res u then
    { toCheckResultApi := u, internalResultId := res.internalResultId }
  else res

/-- The per-run replacement of `updateStateUpdateResult`: a run matching
the 4-tuple with a matching result is rebuilt with the mapped results,
every other run passes through. -/
def runMapFn (uR : CheckRunApi) (uRes : CheckResultApi) (run : CheckRun) :
    CheckRun :=
  if runMatches run uR
      && (run.results.getD []).any (fun res => resultMatches res uRes) then
    { run with results := some ((run.results.getD []).map (resultMapFn uRes)) }
  else run

theorem updateResults_eq (u : CheckResultApi) (l : List CheckResult) :
    updateResults u l =
      (l.map (resultMapFn u), l.any (fun res => resultMatches res u)) := by
  induction l with
  | nil => rfl
  | cons res rest ih =>
    by_cases h : resultMatches res u
    · simp [updateResults, ih, resultMapFn, h]
    · simp [updateResults, ih, resultMapFn, h]

theorem updateRuns_eq (uR : CheckRunApi) (uRes : CheckResultApi)
    (rs : List CheckRun) :
    updateRuns uR uRes rs =
      (rs.map (runMapFn uR uRes),
       rs.any (fun run => runMatches run uR
         && (run.results.getD []).any (fun res => resultMatches res uRes))) := by
  induction rs with
  | nil => rfl
  | cons run rest ih =>
    by_cases hm : runMatches run uR
    · by_cases ha : (run.results.getD []).any (fun res => resultMatches res uRes)
      · simp [updateRuns, ih, runMapFn, hm, ha, updateResults_eq, Bool.or_comm]
      · simp [updateRuns, ih, runMapFn, hm, ha, updateResults_eq]
    · simp [updateRuns, ih, runMapFn, hm]

/-! ## The mutual-exclusion invariant over reachable snapshots -/

/-- One provider entry never carries both markers: `errorMessage` and
`loginCallback` are not both present. -/
def entryOk (st : ChecksProviderState) : Bool :=
  !(st.errorMessage.isSome && st.loginCallback.isSome)

/-- Every entry of a context map satisfies `entryOk`. -/
def mapOk (m : PluginStateMap) : Bool :=
  m.all (fun e => entryOk e.2)

/-- Every provider entry of both contexts satisfies `entryOk`. -/
def stateOk (s : ChecksState) : Bool :=
  mapOk s.pluginStateLatest && mapOk s.pluginStateSelected

theorem mapOk_assocSet (m : PluginStateMap) (k : String)
    (v : ChecksProviderState) (hm : mapOk m = true) (hv : entryOk v = true) :
    mapOk (assocSet m k v) = true := by
  induction m with
  | nil => simp [assocSet, mapOk, hv]
  | cons hd tl ih =>
    obtain ⟨k₂, w⟩ := hd
    simp only [mapOk, List.all_cons, Bool.and_eq_true] at hm
    by_cases h : k₂ = k
    · simp [assocSet, h, mapOk, hv, hm.2]
    · simp only [assocSet, h, if_false, mapOk, List.all_cons, Bool.and_eq_true]
      exact ⟨hm.1, ih hm.2⟩

theorem entryOk_assocGet (m : PluginStateMap) (k : String)
    (v : ChecksProviderState) (hm : mapOk m = true)
    (hv : assocGet m k = some v) : entryOk v = true := by
  induction m with
  | nil => cases hv
  | cons hd tl ih =>
    obtain ⟨k₂, w⟩ := hd
    simp only [mapOk, List.all_cons, Bool.and_eq_true] at hm
    by_cases h : k₂ = k
    · simp only [assocGet, h, if_true] at hv
      cases hv
      exact hm.1
    · simp only [assocGet, h, if_false] at hv
      exact ih hm.2 hv

theorem entryOk_spreadOf (m : PluginStateMap) (p : String)
    (hm : mapOk m = true) : entryOk (spreadOf m p) = true := by
  unfold spreadOf
  cases h : assocGet m p with
  | none => rfl
  | some v => exact entryOk_assocGet m p v hm h

theorem mapOk_getPluginState (s : ChecksState) (ps : ChecksPatchset)
    (h : stateOk s = true) : mapOk (s.getPluginState ps) = true := by
  simp only [stateOk, Bool.and_eq_true] at h
  cases ps
  · exact h.1
  · exact h.2

theorem stateOk_setPluginState (s : ChecksState) (ps : ChecksPatchset)
    (m : PluginStateMap) (h : stateOk s = true) (hm : mapOk m = true) :
    stateOk (s.setPluginState ps m) = true := by
  simp only [stateOk, Bool.and_eq_true] at h
  cases ps
  · simp [ChecksState.setPluginState, stateOk, hm, h.2]
  · simp [ChecksState.setPluginState, stateOk, hm, h.1]

theorem stateOk_applyOp (s : ChecksState) (op : ChecksOp)
    (h : stateOk s = true) : stateOk (applyOp s op) = true := by
  cases op with
  | setProvider p ps =>
    exact stateOk_setPluginState _ _ _ h
      (mapOk_assocSet _ _ _ (mapOk_getPluginState s ps h) rfl)
  | setLoading p ps =>
    apply stateOk_setPluginState _ _ _ h
    apply mapOk_assocSet _ _ _ (mapOk_getPluginState s ps h)
    have hbase := entryOk_spreadOf (s.getPluginState ps) p
      (mapOk_getPluginState s ps h)
    simpa [entryOk] using hbase
  | setError p msg ps =>
    apply stateOk_setPluginState _ _ _ h
    apply mapOk_assocSet _ _ _ (mapOk_getPluginState s ps h)
    simp [entryOk]
  | setNotLoggedIn p cb ps =>
    apply stateOk_setPluginState _ _ _ h
    apply mapOk_assocSet _ _ _ (mapOk_getPluginState s ps h)
    simp [entryOk]
  | setResults p runs actions links ps =>
    simp only [applyOp, updateStateSetResultsRes, setResultsRuns_eq_some,
      applyStep]
    apply stateOk_setPluginState _ _ _ h
    apply mapOk_assocSet _ _ _ (mapOk_getPluginState s ps h)
    simp [entryOk]
  | updateResult p run result ps =>
    simp only [applyOp, updateStateUpdateResultRes]
    cases hget : assocGet (s.getPluginState ps) p with
    | none => simpa [applyStep] using h
    | some st =>
      cases hruns : st.runs with
      | none =>
        simp only [hruns]
        simpa [applyStep] using h
      | some rs =>
        simp only [hruns]
        by_cases hupd : (updateRuns run result rs).2
        · simp only [hupd, if_true, applyStep]
          apply stateOk_setPluginState _ _ _ h
          apply mapOk_assocSet _ _ _ (mapOk_getPluginState s ps h)
          have hst := entryOk_assocGet _ _ _ (mapOk_getPluginState s ps h) hget
          simpa [entryOk] using hst
        · simpa [hupd, applyStep] using h

theorem stateOk_foldl (ops : List ChecksOp) :
    ∀ s : ChecksState, stateOk s = true →
      stateOk (ops.foldl applyOp s) = true := by
  induction ops with
  | nil => intro s h; exact h
  | cons op rest ih =>
    intro s h
    exact ih (applyOp s op) (stateOk_applyOp s op h)

/-! ## The claims -/

/-- Claim C1: in every reachable snapshot (any sequence of the six
state-store operations from the initial empty state) no provider entry of
either patchset context has both `errorMessage` and `loginCallback`
present; in particular, immediately after `updateStateSetError` the
provider's `loginCallback` is undefined, and immediately after
`updateStateSetNotLoggedIn` the provider's `errorMessage` is undefined. -/
theorem checks_c1_error_login_mutually_exclusive (ops : List ChecksOp)
    (s : ChecksState) (p msg : String) (cb : Nat) (ps : ChecksPatchset) :
    stateOk (runOps ops) = true
    ∧ ((assocGet ((updateStateSetError p msg ps s).getPluginState ps) p).getD
        emptyProviderState).loginCallback = none
    ∧ ((assocGet ((updateStateSetNotLoggedIn p cb ps s).getPluginState ps) p).getD
        emptyProviderState).errorMessage = none := by
  refine ⟨stateOk_foldl ops initState rfl, ?_, ?_⟩
  · unfold updateStateSetError
    rw [getPluginState_setPluginState, assocGet_assocSet_self]
    rfl
  · unfold updateStateSetNotLoggedIn
    rw [getPluginState_setPluginState, assocGet_assocSet_self]
    rfl

/-- Claim C2: `setPatchset n` with latest known patchset `L` stores
`undefined` when `n = L` and `n` itself when `n ≠ L`. -/
theorem checks_c2_setPatchset_normalizes (m : ChecksModel) (n L : Nat)
    (h : m.latestPatchNum = some L) :
    (m.setPatchset (some n)).state.patchsetNumberSelected =
      if n = L then none else some n := by
  unfold ChecksModel.setPatchset updateStateSetPatchset
  simp only [h]
  by_cases hn : n = L
  · simp [hn]
  · simp [hn]

/-- Witness for C2, scenario C of the spec: latest 5, `setPatchset 5`
yields `undefined` and `setPatchset 3` yields `3`. -/
theorem checks_c2_witness :
    (ChecksModel.setPatchset { latestPatchNum := some 5 } (some 5)).state.patchsetNumberSelected = none
    ∧ (ChecksModel.setPatchset { latestPatchNum := some 5 } (some 3)).state.patchsetNumberSelected = some 3 := by
  constructor
  · have h := checks_c2_setPatchset_normalizes { latestPatchNum := some 5 } 5 5 rfl
    simpa using h
  · have h := checks_c2_setPatchset_normalizes { latestPatchNum := some 5 } 3 5 rfl
    simpa using h

/-- Claim C4: for every prior provider entry, `updateStateSetError`
produces `loading := false`, `firstTimeLoad := false`,
`errorMessage := message`, `loginCallback := undefined`, `runs := []`,
`actions := []`, with `links` (and `pluginName`) taken unchanged from the
prior entry. -/
theorem checks_c4_setError_fields (s : ChecksState) (p msg : String)
    (ps : ChecksPatchset) (st : ChecksProviderState)
    (h : assocGet (s.getPluginState ps) p = some st) :
    assocGet ((updateStateSetError p msg ps s).getPluginState ps) p =
      some { pluginName := st.pluginName
             loading := some false
             firstTimeLoad := some false
             errorMessage := some msg
             loginCallback := none
             runs := some []
             actions := some []
             links := st.links } := by
  unfold updateStateSetError
  rw [getPluginState_setPluginState, assocGet_assocSet_self]
  unfold spreadOf
  rw [h]
  rfl

/-- Witness for C4, scenario B of the spec: an ERROR response with message
"quota exceeded" on a registered provider with a links list. -/
theorem checks_c4_witness :
    assocGet ((updateStateSetError "ci" "quota exceeded" .LATEST
        { pluginStateLatest := [("ci", { links := some [{ url := "u" }] })] }).getPluginState
      .LATEST) "ci" =
      some { pluginName := none
             loading := some false
             firstTimeLoad := some false
             errorMessage := some "quota exceeded"
             loginCallback := none
             runs := some []
             actions := some []
             links := some [{ url := "u" }] } :=
  checks_c4_setError_fields _ "ci" "quota exceeded" .LATEST
    { links := some [{ url := "u" }] } rfl

/-- Claim C10: registering an already-registered plugin name is a complete
no-op (apart from the console warning): registry, reload subjects, both
contexts' provider states and the fetch pipelines are all unchanged. -/
theorem checks_c10_register_twice_noop (m : ChecksModel) (p : String)
    (h : m.providers.contains p = true) : m.register p = m := by
  have hm : p ∈ m.providers := by simpa using h
  unfold ChecksModel.register
  simp [hm]

/-- Witness for C10: a model with plugin "ci" registered. -/
theorem checks_c10_witness :
    ChecksModel.register { providers := ["ci"] } "ci" = { providers := ["ci"] } :=
  checks_c10_register_twice_noop { providers := ["ci"] } "ci" (by decide)

/-- Claim C3: when the plugin is registered in the context and no stored
run matches the incoming (change, patchset, attempt, checkName) 4-tuple
with a result matching on external id, `updateStateUpdateResult` returns
without publishing: no new snapshot is emitted and the published snapshot
(hence the provider's `runs` array) stays identical. -/
theorem checks_c3_no_match_frame (s : ChecksState) (p : String)
    (uR : CheckRunApi) (uRes : CheckResultApi) (ps : ChecksPatchset)
    (st : ChecksProviderState) (rs : List CheckRun)
    (h1 : assocGet (s.getPluginState ps) p = some st)
    (h2 : st.runs = some rs)
    (h3 : ∀ run ∈ rs, runMatches run uR = true →
      ∀ res ∈ run.results.getD [], resultMatches res uRes = false) :
    updateStateUpdateResultRes p uR uRes ps s = .noop
    ∧ applyStep s (updateStateUpdateResultRes p uR uRes ps s) = s := by
  have hany : (rs.any (fun run => runMatches run uR
      && (run.results.getD []).any (fun res => resultMatches res uRes))) = false := by
    rw [List.any_eq_false]
    intro run hrun
    rw [Bool.and_eq_true]
    rintro ⟨hm, ha⟩
    obtain ⟨res, hres, hmatch⟩ := List.any_eq_true.mp ha
    rw [h3 run hrun hm res hres] at hmatch
    cases hmatch
  have hnoop : updateStateUpdateResultRes p uR uRes ps s = .noop := by
    unfold updateStateUpdateResultRes
    simp only [h1, h2, updateRuns_eq, hany]
    rfl
  refine ⟨hnoop, ?_⟩
  rw [hnoop]
  rfl

/-- A stored run with one result of external id "x", for the C3 witness. -/
def c3Run : CheckRun :=
  { checkName := "c"
    results := some [{ toCheckResultApi := { externalId := some "x" }
                       internalResultId := "i" }] }

/-- The provider entry holding `c3Run`. -/
def c3Entry : ChecksProviderState := { runs := some [c3Run] }

/-- A snapshot with plugin "ci" registered in the LATEST context. -/
def c3State : ChecksState := { pluginStateLatest := [("ci", c3Entry)] }

/-- Witness for C3: the incoming update targets external id "y", which no
stored result carries, so the operation is a no-op and the snapshot is
unchanged. -/
theorem checks_c3_witness :
    updateStateUpdateResultRes "ci" { checkName := "c" }
        { externalId := some "y" } .LATEST c3State = .noop
    ∧ applyStep c3State
        (updateStateUpdateResultRes "ci" { checkName := "c" }
          { externalId := some "y" } .LATEST c3State) = c3State :=
  checks_c3_no_match_frame c3State "ci" { checkName := "c" }
    { externalId := some "y" } .LATEST c3Entry [c3Run] rfl rfl (by decide)

/-- Claim C7: `updateStateSetResults` is idempotent — a second call with
the identical input produces a snapshot equal to the first call's, so all
derived provider data (including the derived ids) agrees. -/
theorem checks_c7_setResults_idempotent (p : String) (runs : List CheckRunApi)
    (acts : List Action) (links : List Link) (ps : ChecksPatchset)
    (s : ChecksState) :
    updateStateSetResults p runs acts links ps
        (updateStateSetResults p runs acts links ps s) =
      updateStateSetResults p runs acts links ps s := by
  unfold updateStateSetResults updateStateSetResultsRes
  rw [setResultsRuns_eq_some]
  simp only [applyStep, getPluginState_setPluginState]
  rw [setPluginState_setPluginState]
  congr 1
  rw [show spreadOf (assocSet (s.getPluginState ps) p
      { spreadOf (s.getPluginState ps) p with
        loading := some false
        firstTimeLoad := some false
        errorMessage := none
        loginCallback := none
        runs := some (runs.map (fun run =>
          mkCheckRun p (sortInfo (attemptInfoFor runs run.checkName)) run))
        actions := some acts
        links := some links }) p =
      { spreadOf (s.getPluginState ps) p with
        loading := some false
        firstTimeLoad := some false
        errorMessage := none
        loginCallback := none
        runs := some (runs.map (fun run =>
          mkCheckRun p (sortInfo (attemptInfoFor runs run.checkName)) run))
        actions := some acts
        links := some links }
    from by rw [spreadOf, assocGet_assocSet_self]; rfl]
  exact assocSet_assocSet_self _ _ _

/-- Claim C8 counterexample: a snapshot with `patchsetNumberSelected = 0`
has the selection defined, yet `checksSelected$` falls back to the
latest-context map (JS truthiness: `0` is falsy), so the view does not
equal `pluginStateSelected` as the claim states. -/
theorem checks_c8_counterexample :
    checksSelected { patchsetNumberSelected := some 0
                     pluginStateLatest := []
                     pluginStateSelected := [("ci", emptyProviderState)] } ≠
      ({ patchsetNumberSelected := some 0
         pluginStateLatest := []
         pluginStateSelected := [("ci", emptyProviderState)] } : ChecksState).pluginStateSelected
    ∧ ({ patchsetNumberSelected := some 0
         pluginStateLatest := []
         pluginStateSelected := [("ci", emptyProviderState)] } : ChecksState).patchsetNumberSelected.isSome
        = true := by
  decide

/-- Claim C8 as amended: the effective selected view equals
`pluginStateSelected` when `patchsetNumberSelected` is defined and truthy
(nonzero), and equals `pluginStateLatest` when it is undefined or `0`. -/
theorem checks_c8_selected_view (s : ChecksState) :
    (∀ n, s.patchsetNumberSelected = some n → n ≠ 0 →
      checksSelected s = s.pluginStateSelected)
    ∧ (s.patchsetNumberSelected = none → checksSelected s = s.pluginStateLatest)
    ∧ (s.patchsetNumberSelected = some 0 → checksSelected s = s.pluginStateLatest) := by
  refine ⟨?_, ?_, ?_⟩
  · intro n hn h0
    simp [checksSelected, hn, h0]
  · intro hn
    simp [checksSelected, hn]
  · intro hn
    simp [checksSelected, hn]

/-- Witness for C8: a truthy selection shows the selected map, no
selection shows the latest map. -/
theorem checks_c8_witness :
    checksSelected { patchsetNumberSelected := some 3
                     pluginStateLatest := []
                     pluginStateSelected := [("ci", emptyProviderState)] } =
      [("ci", emptyProviderState)]
    ∧ checksSelected { pluginStateLatest := [("ci", emptyProviderState)]
                       pluginStateSelected := [] } =
      [("ci", emptyProviderState)] := by
  constructor
  · exact (checks_c8_selected_view _).1 3 rfl (by decide)
  · exact (checks_c8_selected_view _).2.1 rfl

/-- Claim C5 counterexample: `updateStateUpdateResult` on a plugin name
that was never registered reads `.runs` of `undefined`
(`pluginState[pluginName].runs`) and throws a TypeError — so the claim
that every state-store mutation, `updateStateUpdateResult` included,
never throws on unknown plugin names is false. -/
theorem checks_c5_counterexample :
    updateStateUpdateResultRes "unknown" { checkName := "c" } {} .LATEST
      initState = .error := by
  rfl

/-- Claim C5 as amended: `updateStateSetResults` never throws (its
internal assertion always holds), and an unknown plugin name on the
merge-based set operations merely spreads `undefined`, producing an entry
with only the explicitly set keys (shown for `updateStateSetLoading`; the
three simple set operations are total by construction since spreading
`undefined` is legal JS); `updateStateUpdateResult`, however, throws a
TypeError whenever the plugin has no entry in the context, or an entry
without a `runs` array. -/
theorem checks_c5_throw_characterization (s : ChecksState) (p : String)
    (runs : List CheckRunApi) (acts : List Action) (links : List Link)
    (ps : ChecksPatchset) (uR : CheckRunApi) (uRes : CheckResultApi) :
    updateStateSetResultsRes p runs acts links ps s ≠ .error
    ∧ (assocGet (s.getPluginState ps) p = none →
        updateStateUpdateResultRes p uR uRes ps s = .error)
    ∧ (∀ st, assocGet (s.getPluginState ps) p = some st → st.runs = none →
        updateStateUpdateResultRes p uR uRes ps s = .error)
    ∧ (assocGet (s.getPluginState ps) p = none →
        assocGet ((updateStateSetLoading p ps s).getPluginState ps) p =
          some { emptyProviderState with loading := some true }) := by
  refine ⟨?_, ?_, ?_, ?_⟩
  · unfold updateStateSetResultsRes
    rw [setResultsRuns_eq_some]
    simp
  · intro h
    unfold updateStateUpdateResultRes
    simp only [h]
  · intro st h hruns
    unfold updateStateUpdateResultRes
    simp only [h, hruns]
  · intro h
    unfold updateStateSetLoading
    rw [getPluginState_setPluginState, assocGet_assocSet_self, spreadOf, h]
    rfl

/-- Witness for C5: at the initial empty state, `updateStateSetResults`
does not throw, `updateStateUpdateResult` throws with no entry and with an
entry lacking `runs`, and `updateStateSetLoading` leaves a loading-only
entry. -/
theorem checks_c5_witness :
    updateStateSetResultsRes "x" [] [] [] .LATEST initState ≠ .error
    ∧ updateStateUpdateResultRes "x" { checkName := "c" } {} .LATEST
        initState = .error
    ∧ updateStateUpdateResultRes "x" { checkName := "c" } {} .LATEST
        { pluginStateLatest := [("x", emptyProviderState)] } = .error
    ∧ assocGet ((updateStateSetLoading "x" .LATEST initState).getPluginState
        .LATEST) "x" = some { emptyProviderState with loading := some true } := by
  obtain ⟨h1, h2, _, h4⟩ := checks_c5_throw_characterization initState "x"
    [] [] [] .LATEST { checkName := "c" } {}
  obtain ⟨_, _, h3, _⟩ := checks_c5_throw_characterization
    { pluginStateLatest := [("x", emptyProviderState)] } "x"
    [] [] [] .LATEST { checkName := "c" } {}
  exact ⟨h1, h2 rfl, h3 emptyProviderState rfl rfl, h4 rfl⟩

/-- The targeted-replacement property of claim C6 for one context: the
operation publishes a snapshot differing only in the plugin's entry, whose
runs list `rs'` has, position by position: every run failing the 4-tuple
filter unchanged; a run passing the filter but with no matching result
unchanged; and the results of a matching run replaced position by
position, a matching result becoming the incoming result with its stored
`internalResultId` preserved, every other result unchanged. -/
def updateResultReplacesOnly (s : ChecksState) (p : String)
    (uR : CheckRunApi) (uRes : CheckResultApi) (ps : ChecksPatchset)
    (st : ChecksProviderState) (rs : List CheckRun) : Prop :=
  ∃ rs' : List CheckRun,
    updateStateUpdateResultRes p uR uRes ps s =
      .next (s.setPluginState ps (assocSet (s.getPluginState ps) p
        { st with runs := some rs' }))
    ∧ rs'.length = rs.length
    ∧ ∀ (i : Nat) (run : CheckRun), rs[i]? = some run →
        (runMatches run uR = false → rs'[i]? = some run)
        ∧ (runMatches run uR = true →
            ((run.results.getD []).any (fun res => resultMatches res uRes)
                = false → rs'[i]? = some run)
            ∧ ∀ (j : Nat) (res : CheckResult), (run.results.getD [])[j]? = some res →
                (rs'[i]?.bind (fun (r : CheckRun) => (r.results.getD [])[j]?)) =
                  some (if resultMatches res uRes then
                          { toCheckResultApi := uRes
                            internalResultId := res.internalResultId }
                        else res))

/-- Claim C6: when the context holds a run matching the incoming
(change, patchset, attempt, checkName) 4-tuple with a result matching on
external id, `updateStateUpdateResult` (which `updateResult` applies to
the LATEST and SELECTED contexts independently — the context is
universally quantified here) replaces only that result, preserving its
`internalResultId`, replaces only the containing run, and leaves every
other run and result identical. -/
theorem checks_c6_updateResult_targeted (s : ChecksState) (p : String)
    (uR : CheckRunApi) (uRes : CheckResultApi) (ps : ChecksPatchset)
    (st : ChecksProviderState) (rs : List CheckRun)
    (h1 : assocGet (s.getPluginState ps) p = some st)
    (h2 : st.runs = some rs)
    (h3 : ∃ run ∈ rs, runMatches run uR = true
      ∧ ∃ res ∈ run.results.getD [], resultMatches res uRes = true) :
    updateResultReplacesOnly s p uR uRes ps st rs := by
  obtain ⟨run₀, hrun₀, hm₀, res₀, hres₀, hrm₀⟩ := h3
  have hany : (rs.any (fun run => runMatches run uR
      && (run.results.getD []).any (fun res => resultMatches res uRes)))
      = true := by
    apply List.any_eq_true.mpr
    refine ⟨run₀, hrun₀, ?_⟩
    rw [Bool.and_eq_true]
    exact ⟨hm₀, List.any_eq_true.mpr ⟨res₀, hres₀, hrm₀⟩⟩
  refine ⟨rs.map (runMapFn uR uRes), ?_, by simp, ?_⟩
  · unfold updateStateUpdateResultRes
    simp only [h1, h2, updateRuns_eq, hany]
    rfl
  · intro i run hget
    have hget' : (rs.map (runMapFn uR uRes))[i]? =
        some (runMapFn uR uRes run) := by
      rw [List.getElem?_map, hget]
      rfl
    refine ⟨?_, ?_⟩
    · intro hm
      rw [hget']
      simp [runMapFn, hm]
    · intro hm
      refine ⟨?_, ?_⟩
      · intro hanyf
        rw [hget']
        simp [runMapFn, hm, hanyf]
      · intro j res hres
        rw [hget']
        by_cases ha : (run.results.getD []).any (fun r => resultMatches r uRes)
        · simp only [runMapFn, hm, ha, Bool.and_self, if_true,
            Option.some_bind, Option.getD_some]
          rw [List.getElem?_map, hres]
          simp [resultMapFn]
        · have hfalse : resultMatches res uRes = false := by
            have hmem : res ∈ run.results.getD [] :=
              List.getElem?_mem hres
            have := List.any_eq_false.mp (by simpa using ha) res hmem
            simpa using this
          simp [runMapFn, hm, ha, hres, hfalse]

/-- A stored run with one result of external id "x", for the C6
witness. -/
def c6Run : CheckRun :=
  { checkName := "c"
    results := some [{ toCheckResultApi := { externalId := some "x" }
                       internalResultId := "i" }] }

/-- The provider entry holding `c6Run`. -/
def c6Entry : ChecksProviderState := { runs := some [c6Run] }

/-- A snapshot with plugin "ci" registered in the LATEST context holding
`c6Run`. -/
def c6State : ChecksState := { pluginStateLatest := [("ci", c6Entry)] }

/-- Witness for C6: an incoming result with matching external id "x" on a
run matching the stored run's 4-tuple. -/
theorem checks_c6_witness :
    updateResultReplacesOnly c6State "ci" { checkName := "c" }
      { externalId := some "x", summary := "new" } .LATEST c6Entry [c6Run] :=
  checks_c6_updateResult_targeted c6State "ci" { checkName := "c" }
    { externalId := some "x", summary := "new" } .LATEST c6Entry [c6Run]
    rfl rfl (by decide)

/-- Claim C9: `triggerAction` produces no effect at all — no callback
invocation and no alert — unless the action and its callback are present,
the current change number is known (truthy), and a patchset number
resolves (the run's own, else the latest, truthy); in particular with no
current change number the trace is empty, and any invocation that does
occur carries exactly the guarded values. -/
theorem checks_c9_triggerAction_guards (m : ChecksModel) (a : Option Action)
    (r : Option CheckRun) (pl : Bool) :
    (m.changeNum = none → triggerAction m a r pl = [])
    ∧ (∀ args cb, TriggerEffect.invoke args cb ∈ triggerAction m a r pl →
        (∃ act, a = some act ∧ act.callback = some cb
          ∧ args.actionName = act.name)
        ∧ m.changeNum = some args.changeNum ∧ args.changeNum ≠ 0
        ∧ resolvedPatchset m r = some args.patchSet ∧ args.patchSet ≠ 0
        ∧ args.attempt = r.bind (fun run => run.attempt)
        ∧ args.externalId = r.bind (fun run => run.externalId)
        ∧ args.checkName = r.map (fun run => run.checkName)) := by
  refine ⟨?_, ?_⟩
  · intro h
    rcases a with _ | act
    · rfl
    · rcases hcb : act.callback with _ | cb
      · simp [triggerAction, hcb]
      · simp [triggerAction, hcb, h]
  · intro args cb hmem
    rcases a with _ | act
    · simp [triggerAction] at hmem
    · rcases hcb : act.callback with _ | cb₀
      · simp [triggerAction, hcb] at hmem
      · rcases hch : m.changeNum with _ | chNum
        · simp [triggerAction, hcb, hch] at hmem
        · by_cases h0 : chNum = 0
          · simp [triggerAction, hcb, hch, h0] at hmem
          · rcases hps : resolvedPatchset m r with _ | pSet
            · simp [triggerAction, hcb, hch, h0, hps] at hmem
            · by_cases hp0 : pSet = 0
              · simp [triggerAction, hcb, hch, h0, hps, hp0] at hmem
              · simp only [triggerAction, hcb, hch, h0, hps, hp0, if_false,
                  List.mem_cons] at hmem
                rcases hmem with heq | hmem2
                · rw [TriggerEffect.invoke.injEq] at heq
                  obtain ⟨hargs, hcbe⟩ := heq
                  subst hargs
                  subst hcbe
                  exact ⟨⟨act, rfl, hcb, rfl⟩, rfl, h0, rfl, hp0, rfl, rfl, rfl⟩
                · rcases pl with _ | _
                  · simp at hmem2
                  · simp at hmem2

/-- Witness for C9, scenario E of the spec: with no current change number
the callback is never invoked and no alert fires. -/
theorem checks_c9_witness :
    triggerAction { changeNum := none }
      (some { name := "a", callback := some 7 }) none true = [] :=
  (checks_c9_triggerAction_guards { changeNum := none }
    (some { name := "a", callback := some 7 }) none true).1 rfl

end Gerrit
